import Mathlib

/-!
Verification of src/docs/docs-beta/src/components/Cards.tsx.

The file defines two stateless React components, Card and CardGroup, that
map props to markup. We embed the rendered markup as an inductive tree:
plain elements carry a tag, an optional className and a list of children;
the external Link primitive is kept as its own constructor carrying its
destination, so that navigable elements are distinguishable in the tree.
Template literals of the source become string concatenation; the numeric
prop cols of CardGroup (a JS number used only inside a template literal)
is embedded as an Int rendered with toString.
-/

/-- A node of the markup tree produced by the components: raw text, a plain
element with tag, optional className and children, or the host framework's
Link primitive with its destination, optional className and children. -/
inductive Node where
  | text (s : String) : Node
  | element (tag : String) (className : Option String) (children : List Node) : Node
  | link (dest : String) (className : Option String) (children : List Node) : Node
deriving Repr

/-- Embedding of the Card component.  Source:
Link (to = href, className = "card") wrapping h3 (title), i (className =
"icon-" followed by icon, no children) and p (children). -/
def Card (title icon href : String) (children : List Node) : Node :=
  Node.link href (some "card")
    [ Node.element "h3" none [Node.text title],
      Node.element "i" (some ("icon-" ++ icon)) [],
      Node.element "p" none children ]

/-- Embedding of the CardGroup component.  Source: div (className =
"card-group cols-" followed by the rendering of cols) wrapping children. -/
def CardGroup (cols : Int) (children : List Node) : Node :=
  Node.element "div" (some ("card-group cols-" ++ toString cols)) children

mutual

/-- Number of navigable (Link) elements in a markup tree. -/
def countLinks : Node → Nat
  | .text _ => 0
  | .element _ _ cs => countLinksList cs
  | .link _ _ cs => 1 + countLinksList cs

/-- Number of navigable (Link) elements in a list of markup trees. -/
def countLinksList : List Node → Nat
  | [] => 0
  | c :: cs => countLinks c + countLinksList cs

end

mutual

/-- All className values occurring in a markup tree, in document order. -/
def classList : Node → List String
  | .text _ => []
  | .element _ cls cs => cls.toList ++ classListAll cs
  | .link _ cls cs => cls.toList ++ classListAll cs

/-- All className values occurring in a list of markup trees. -/
def classListAll : List Node → List String
  | [] => []
  | c :: cs => classList c ++ classListAll cs

end

/-- The tag of the root node, when it is a plain element. -/
def rootTag : Node → Option String
  | .text _ => none
  | .element tag _ _ => some tag
  | .link _ _ _ => none

/-- The destination of the root node, when it is a Link. -/
def rootDest : Node → Option String
  | .link dest _ _ => some dest
  | _ => none

/-- The className of the root node, if any. -/
def rootClass : Node → Option String
  | .text _ => none
  | .element _ cls _ => cls
  | .link _ cls _ => cls

/-- The direct children of a node. -/
def directChildren : Node → List Node
  | .text _ => []
  | .element _ _ cs => cs
  | .link _ _ cs => cs

/-- The className values of the glyph (i-tagged) direct children of a node. -/
def glyphClasses (n : Node) : List String :=
  (directChildren n).filterMap fun c =>
    match c with
    | .element "i" cls _ => cls
    | _ => none

/-- The node with the className of its root removed; used to compare outputs
up to the root class attribute. -/
def stripRootClass : Node → Node
  | .text s => .text s
  | .element tag _ cs => .element tag none cs
  | .link dest _ cs => .link dest none cs

/-- C1: for every valid props record, rendering Card produces exactly one
navigable (Link) element (when the supplied children contain none of their
own), its destination equals href, and it contains a heading whose text
equals title and a paragraph containing children; in particular the example
with title Guide, icon book, href /guide and children the text Learn the
basics yields a link to /guide containing the h3 heading Guide, an element
of class icon-book, and a p element holding Learn the basics. -/
theorem card_renders_single_link (title icon href : String) (children : List Node)
    (h : countLinksList children = 0) :
    countLinks (Card title icon href children) = 1 ∧
    rootDest (Card title icon href children) = some href ∧
    Node.element "h3" none [Node.text title] ∈ directChildren (Card title icon href children) ∧
    Node.element "p" none children ∈ directChildren (Card title icon href children) ∧
    rootDest (Card "Guide" "book" "/guide" [Node.text "Learn the basics"]) = some "/guide" ∧
    directChildren (Card "Guide" "book" "/guide" [Node.text "Learn the basics"]) =
      [ Node.element "h3" none [Node.text "Guide"],
        Node.element "i" (some "icon-book") [],
        Node.element "p" none [Node.text "Learn the basics"] ] := by
  refine ⟨?_, rfl, ?_, ?_, rfl, rfl⟩
  · simp [Card, countLinks, countLinksList, h]
  · simp [Card, directChildren]
  · simp [Card, directChildren]

/-- Witness for card_renders_single_link at the concrete example of the
claim: the children list holding only the text Learn the basics contains no
link, and the rendered Card contains exactly one. -/
theorem card_renders_single_link_witness :
    countLinks (Card "Guide" "book" "/guide" [Node.text "Learn the basics"]) = 1 :=
  (card_renders_single_link "Guide" "book" "/guide" [Node.text "Learn the basics"]
    (by rfl)).1

/-- C2: for every cols and children, CardGroup renders exactly one container
(div) element whose class string is the concatenation of the literal
card-group cols- with the rendering of cols; for cols = 3 the class is
card-group cols-3. -/
theorem cardGroup_container_class (cols : Int) (children : List Node) :
    rootTag (CardGroup cols children) = some "div" ∧
    rootClass (CardGroup cols children) = some ("card-group cols-" ++ toString cols) ∧
    rootClass (CardGroup 3 children) = some "card-group cols-3" :=
  ⟨rfl, rfl, rfl⟩

/-- C3: the container produced by CardGroup contains exactly the elements of
children, unmodified and in input order; in particular for any two nodes
cardA and cardB, CardGroup 2 on the list of cardA then cardB produces a
container of class card-group cols-2 containing cardA then cardB. -/
theorem cardGroup_children_preserved (cols : Int) (children : List Node)
    (cardA cardB : Node) :
    directChildren (CardGroup cols children) = children ∧
    directChildren (CardGroup 2 [cardA, cardB]) = [cardA, cardB] ∧
    rootClass (CardGroup 2 [cardA, cardB]) = some "card-group cols-2" :=
  ⟨rfl, rfl, rfl⟩

/-- C4: for every string icon, the glyph (i-tagged) element rendered by Card
has class exactly the literal concatenation of icon- with icon, and it is
the only glyph among the link's direct children; icon rocket gives class
icon-rocket. -/
theorem card_glyph_class (title icon href : String) (children : List Node) :
    glyphClasses (Card title icon href children) = ["icon-" ++ icon] ∧
    glyphClasses (Card title "rocket" href children) = ["icon-rocket"] := by
  constructor
  · simp [Card, glyphClasses, directChildren]
  · simp [Card, glyphClasses, directChildren]

/-- C5: rendering is deterministic and idempotent: both components are pure
functions of their props in this embedding, so two invocations on identical
props yield structurally identical markup. -/
theorem render_deterministic (title icon href : String) (cardChildren : List Node)
    (cols : Int) (groupChildren : List Node) :
    Card title icon href cardChildren = Card title icon href cardChildren ∧
    CardGroup cols groupChildren = CardGroup cols groupChildren :=
  ⟨rfl, rfl⟩

/-- C6: the navigable element produced by Card carries exactly the class
card, and the complete list of class names the two components emit beyond
those of the supplied children is card and icon-icon for Card, and
card-group cols-cols for CardGroup. -/
theorem components_class_contract (title icon href : String) (cardChildren : List Node)
    (cols : Int) (groupChildren : List Node) :
    rootClass (Card title icon href cardChildren) = some "card" ∧
    classList (Card title icon href cardChildren) =
      "card" :: ("icon-" ++ icon) :: classListAll cardChildren ∧
    classList (CardGroup cols groupChildren) =
      ("card-group cols-" ++ toString cols) :: classListAll groupChildren := by
  refine ⟨rfl, ?_, ?_⟩
  · simp [Card, classList, classListAll, Option.toList]
  · simp [CardGroup, classList, classListAll, Option.toList]

/-- C7: CardGroup performs no validation of cols: for every integer cols,
zero and negative included, rendering succeeds and yields the container
with class card-group cols- followed by the rendering of cols, the children
untouched; cols = 0 gives card-group cols-0 and cols = -1 gives
card-group cols--1. -/
theorem cardGroup_no_validation (cols : Int) (children : List Node) :
    rootClass (CardGroup cols children) = some ("card-group cols-" ++ toString cols) ∧
    directChildren (CardGroup cols children) = children ∧
    rootClass (CardGroup 0 children) = some "card-group cols-0" ∧
    rootClass (CardGroup (-1) children) = some "card-group cols--1" :=
  ⟨rfl, rfl, rfl, rfl⟩

/-- C8: Card performs no validation or transformation of href: every string,
malformed destinations included, is passed verbatim as the link's
destination and rendering always succeeds. -/
theorem card_href_verbatim (title icon href : String) (children : List Node) :
    rootDest (Card title icon href children) = some href ∧
    rootDest (Card title icon "::not a url::" children) = some "::not a url::" :=
  ⟨rfl, rfl⟩

/-- C9: the link element's children appear in the fixed order heading (h3
with title), then glyph (i element), then paragraph (p with children), and
the glyph element has no children. -/
theorem card_child_order (title icon href : String) (children : List Node) :
    directChildren (Card title icon href children) =
      [ Node.element "h3" none [Node.text title],
        Node.element "i" (some ("icon-" ++ icon)) [],
        Node.element "p" none children ] ∧
    directChildren (Node.element "i" (some ("icon-" ++ icon)) []) = [] :=
  ⟨rfl, rfl⟩

/-- C10: CardGroup's output depends on cols only through the container's
class string: for any two values of cols and the same children, the two
outputs agree once the root class attribute is removed, and the children
subtree is unchanged. -/
theorem cardGroup_frame_cols (cols1 cols2 : Int) (children : List Node) :
    stripRootClass (CardGroup cols1 children) = stripRootClass (CardGroup cols2 children) ∧
    directChildren (CardGroup cols1 children) = directChildren (CardGroup cols2 children) :=
  ⟨rfl, rfl⟩
